import Mathlib

/-!
# PropGrid Service Worker — verification development

Shallow embedding of the PropGrid service worker (offline cache manager):
the constants `CACHE_NAME`/`STATIC_CACHE`/`DYNAMIC_CACHE`, the static
precache manifest `STATIC_FILES`, the install/activate lifecycle handlers,
the per-origin fetch handlers (`handleSameOriginRequest`,
`handleCDNRequest`, `handleExternalRequest`), the background-sync path
(`doBackgroundSync`, `getStoredFormData`, `clearStoredFormData`), and the
`notificationclick` handler.

The browser Cache Storage is modelled as an ordered association list of
named caches, each an ordered association list from request URL to stored
response; `caches.match` scans the caches in creation order, mirroring the
platform's `CacheStorage.match` semantics.  The network is a function from
URL to `Option Response`, `none` modelling a thrown fetch error.
-/

set_option autoImplicit false

namespace PropGridSW

/-- A stored/returned HTTP response: status, body text, header list.
Mirrors the parts of the platform `Response` the worker inspects. -/
structure Response where
  status : Nat
  body : String
  headers : List (String × String)
deriving Repr, DecidableEq

/-- `Response.ok` of the platform: status in the inclusive range 200–299. -/
def Response.ok (r : Response) : Bool :=
  200 ≤ r.status && r.status < 300

/-- An intercepted request: absolute URL and HTTP method. -/
structure Request where
  url : String
  method : String
deriving Repr, DecidableEq

/-- Whether the first list is a prefix of the second. -/
def charsPrefixOf : List Char → List Char → Bool
  | [], _ => true
  | _ :: _, [] => false
  | a :: as, b :: bs => a == b && charsPrefixOf as bs

/-- Whether the first list occurs as a contiguous run inside the second. -/
def charsIncludes (needle : List Char) : List Char → Bool
  | [] => charsPrefixOf needle []
  | b :: bs => charsPrefixOf needle (b :: bs) || charsIncludes needle bs

/-- JavaScript `hay.includes(needle)` on strings. -/
def strIncludes (needle hay : String) : Bool :=
  charsIncludes needle.data hay.data

/-- The characters before the first slash. -/
def charsTakeUntilSlash : List Char → List Char
  | [] => []
  | c :: cs => if c = '/' then [] else c :: charsTakeUntilSlash cs

/-- Split a character list at the first occurrence of `://`, returning the
part before it and the part after it. -/
def charsSplitSchemeSep : List Char → Option (List Char × List Char)
  | [] => none
  | c :: cs =>
    if charsPrefixOf [':', '/', '/'] (c :: cs) then some ([], cs.drop 2)
    else
      match charsSplitSchemeSep cs with
      | some (pre, post) => some (c :: pre, post)
      | none => none

/-- `new URL(u).origin`: scheme plus host (everything before the first
slash after the scheme separator). -/
def urlOrigin (u : String) : String :=
  match charsSplitSchemeSep u.data with
  | some (scheme, rest) => String.mk scheme ++ "://" ++ String.mk (charsTakeUntilSlash rest)
  | none => u

/-- One named cache: URL-keyed association list of responses. -/
abbrev Cache := List (String × Response)

/-- The worker's Cache Storage: named caches in creation order. -/
abbrev CacheStorage := List (String × Cache)

/-- The network: a URL to fetch, to `some` response or `none` for a
thrown fetch error. -/
abbrev Network := String → Option Response

/-- `cache.match(url)` within a single cache: first entry for the URL. -/
def cacheGet : Cache → String → Option Response
  | [], _ => none
  | e :: es, url => if e.1 = url then some e.2 else cacheGet es url

/-- `cache.put(url, r)`: overwrite the entry for the URL, or append. -/
def cachePut : Cache → String → Response → Cache
  | [], url, r => [(url, r)]
  | e :: es, url, r => if e.1 = url then (url, r) :: es else e :: cachePut es url r

/-- `cache.delete(url)`: remove any entry for the URL. -/
def cacheDeleteEntry : Cache → String → Cache
  | [], _ => []
  | e :: es, url => if e.1 = url then cacheDeleteEntry es url else e :: cacheDeleteEntry es url

/-- Whether a cache of the given name exists. -/
def storageHasCache : CacheStorage → String → Bool
  | [], _ => false
  | c :: cs, n => c.1 == n || storageHasCache cs n

/-- `caches.open(name)`: create the named cache (at the end, preserving
creation order) when absent. -/
def storageOpen (s : CacheStorage) (n : String) : CacheStorage :=
  if storageHasCache s n then s else s ++ [(n, [])]

/-- Contents of the named cache (empty when absent). -/
def storageGetCache : CacheStorage → String → Cache
  | [], _ => []
  | c :: cs, n => if c.1 = n then c.2 else storageGetCache cs n

/-- Replace the contents of the named cache (create at the end if absent). -/
def storageSetCache : CacheStorage → String → Cache → CacheStorage
  | [], n, c => [(n, c)]
  | e :: es, n, c => if e.1 = n then (n, c) :: es else e :: storageSetCache es n c

/-- `caches.open(name)` followed by `cache.put(url, r)`. -/
def storagePut (s : CacheStorage) (n url : String) (r : Response) : CacheStorage :=
  let s1 := storageOpen s n
  storageSetCache s1 n (cachePut (storageGetCache s1 n) url r)

/-- `caches.match(url)`: scan the caches in creation order, return the
first match. -/
def storageMatch : CacheStorage → String → Option Response
  | [], _ => none
  | c :: cs, url =>
    match cacheGet c.2 url with
    | some r => some r
    | none => storageMatch cs url

/-- `caches.keys()`: names of the existing caches. -/
def storageKeys (s : CacheStorage) : List String :=
  s.map Prod.fst

/-- `caches.delete(url)` on one entry of a named cache, as used by
`clearStoredFormData`. -/
def storageDeleteEntry (s : CacheStorage) (n url : String) : CacheStorage :=
  storageSetCache s n (cacheDeleteEntry (storageGetCache s n) url)

/-! ## Worker constants (verbatim from the source) -/

def CACHE_NAME : String := "propgrid-v1.0.0"

def STATIC_CACHE : String := "propgrid-static-v1.0.0"

def DYNAMIC_CACHE : String := "propgrid-dynamic-v1.0.0"

/-- The static precache manifest `STATIC_FILES`. -/
def STATIC_FILES : List String :=
  [ "/",
    "/index.html",
    "/script.js",
    "https://cdn.tailwindcss.com",
    "https://fonts.googleapis.com/css2?family=Inter:wght@400;500;600;700&display=swap",
    "https://cdnjs.cloudflare.com/ajax/libs/font-awesome/6.4.0/css/all.min.css" ]

/-! ## Install -/

/-- Outcome of the install event.  `waitUntilResolved` records whether the
promise handed to `event.waitUntil` settled without rejection (the install
succeeds exactly when it does); `skipWaitingCalled` records whether
`self.skipWaiting()` ran. -/
structure InstallOutcome where
  caches : CacheStorage
  waitUntilResolved : Bool
  skipWaitingCalled : Bool
deriving Repr, DecidableEq

/-- The fetch phase of `cache.addAll(urls)`: fetch every URL; the whole
operation fails if any fetch throws or any response is not ok. -/
def fetchAll (net : Network) : List String → Option (List (String × Response))
  | [] => some []
  | u :: us =>
    match net u with
    | some r => if r.ok then (fetchAll net us).map (fun prs => (u, r) :: prs) else none
    | none => none

/-- The write phase of `cache.addAll`: put every fetched pair. -/
def cacheAddAllEntries (c : Cache) (prs : List (String × Response)) : Cache :=
  prs.foldl (fun acc pr => cachePut acc pr.1 pr.2) c

/-- The `install` listener: `caches.open(STATIC_CACHE)`, then
`cache.addAll(STATIC_FILES)`, then `self.skipWaiting()`.  The trailing
`.catch` only logs, so the `waitUntil` promise resolves on both paths;
on the failure path `skipWaiting` is skipped and no entries are stored. -/
def installHandler (net : Network) (s : CacheStorage) : InstallOutcome :=
  let s1 := storageOpen s STATIC_CACHE
  match fetchAll net STATIC_FILES with
  | some prs =>
      { caches := storageSetCache s1 STATIC_CACHE
          (cacheAddAllEntries (storageGetCache s1 STATIC_CACHE) prs),
        waitUntilResolved := true,
        skipWaitingCalled := true }
  | none =>
      { caches := s1, waitUntilResolved := true, skipWaitingCalled := false }

/-! ## Activate -/

/-- Outcome of the activate event: surviving caches, and whether
`self.clients.claim()` ran. -/
structure ActivateOutcome where
  caches : CacheStorage
  claimed : Bool
deriving Repr, DecidableEq

/-- The `activate` listener: delete every cache whose name is neither
`STATIC_CACHE` nor `DYNAMIC_CACHE`, then `self.clients.claim()`. -/
def activateHandler (s : CacheStorage) : ActivateOutcome :=
  { caches := s.filter (fun c => c.1 == STATIC_CACHE || c.1 == DYNAMIC_CACHE),
    claimed := true }

/-! ## Fetch -/

/-- What a fetch handler hands back to `respondWith`: a response, the
undefined value (`caches.match` missing), or a propagated error. -/
inductive FetchResult where
  | response (r : Response)
  | noResponse
  | thrown
deriving Repr, DecidableEq

/-- Outcome of one fetch handler run: the result, the cache storage
afterwards, and how many network fetches were attempted. -/
structure HandlerOutcome where
  result : FetchResult
  caches : CacheStorage
  fetchCount : Nat
deriving Repr, DecidableEq

/-- `handleSameOriginRequest`: network first; an ok network response is
copied into `DYNAMIC_CACHE` and returned, a non-ok one returned uncached;
on a thrown fetch, fall back to `caches.match(request)` and then to
`caches.match('/offline.html')`. -/
def handleSameOriginRequest (net : Network) (s : CacheStorage) (req : Request) :
    HandlerOutcome :=
  match net req.url with
  | some networkResponse =>
      let s2 := if networkResponse.ok
        then storagePut s DYNAMIC_CACHE req.url networkResponse
        else s
      { result := .response networkResponse, caches := s2, fetchCount := 1 }
  | none =>
      match storageMatch s req.url with
      | some cachedResponse =>
          { result := .response cachedResponse, caches := s, fetchCount := 1 }
      | none =>
          match storageMatch s "/offline.html" with
          | some offlinePage =>
              { result := .response offlinePage, caches := s, fetchCount := 1 }
          | none =>
              { result := .noResponse, caches := s, fetchCount := 1 }

/-- The synthetic stylesheet returned when the Tailwind CDN fails:
`new Response('/* Tailwind CSS fallback */', {headers: {'Content-Type': 'text/css'}})`,
which defaults to status 200. -/
def tailwindFallbackResponse : Response :=
  { status := 200,
    body := "/* Tailwind CSS fallback */",
    headers := [("Content-Type", "text/css")] }

/-- `handleCDNRequest`: cache first; on a miss fetch the network, caching
an ok response into `STATIC_CACHE`; on a thrown fetch return the synthetic
stylesheet for `tailwindcss.com` URLs and re-throw for the rest. -/
def handleCDNRequest (net : Network) (s : CacheStorage) (req : Request) :
    HandlerOutcome :=
  match storageMatch s req.url with
  | some cachedResponse =>
      { result := .response cachedResponse, caches := s, fetchCount := 0 }
  | none =>
      match net req.url with
      | some networkResponse =>
          let s2 := if networkResponse.ok
            then storagePut s STATIC_CACHE req.url networkResponse
            else s
          { result := .response networkResponse, caches := s2, fetchCount := 1 }
      | none =>
          if strIncludes "tailwindcss.com" req.url then
            { result := .response tailwindFallbackResponse, caches := s, fetchCount := 1 }
          else
            { result := .thrown, caches := s, fetchCount := 1 }

/-- `handleExternalRequest`: network only; on a thrown fetch return a
synthetic 503 response. -/
def handleExternalRequest (net : Network) (s : CacheStorage) (req : Request) :
    HandlerOutcome :=
  match net req.url with
  | some r => { result := .response r, caches := s, fetchCount := 1 }
  | none =>
      { result := .response { status := 503, body := "Offline", headers := [] },
        caches := s, fetchCount := 1 }

/-- The origin test of the `fetch` listener's CDN branch:
`url.origin.includes(...)` over the three recognized CDN hosts. -/
def isCDNOrigin (origin : String) : Bool :=
  strIncludes "cdn.tailwindcss.com" origin
    || strIncludes "fonts.googleapis.com" origin
    || strIncludes "cdnjs.cloudflare.com" origin

/-- The `fetch` listener: skip non-GET requests (`none` = not intercepted),
then route by origin to the same-origin, CDN, or external handler. -/
def fetchListener (selfOrigin : String) (net : Network) (s : CacheStorage)
    (req : Request) : Option HandlerOutcome :=
  if req.method ≠ "GET" then none
  else
    let origin := urlOrigin req.url
    if origin = selfOrigin then some (handleSameOriginRequest net s req)
    else if isCDNOrigin origin then some (handleCDNRequest net s req)
    else some (handleExternalRequest net s req)

/-! ## Background sync -/

/-- Outcome of a background-sync run: cache storage afterwards and the
`(endpoint, body)` of the POST that was made, if any. -/
structure SyncOutcome where
  caches : CacheStorage
  posted : Option (String × String)
deriving Repr, DecidableEq

/-- `getStoredFormData`: open `DYNAMIC_CACHE`, match `/form-data`, return
the stored payload (`response.json()`, modelled as the stored body). -/
def getStoredFormData (s : CacheStorage) : Option String × CacheStorage :=
  let s1 := storageOpen s DYNAMIC_CACHE
  match cacheGet (storageGetCache s1 DYNAMIC_CACHE) "/form-data" with
  | some r => (some r.body, s1)
  | none => (none, s1)

/-- `clearStoredFormData`: open `DYNAMIC_CACHE` and delete `/form-data`. -/
def clearStoredFormData (s : CacheStorage) : CacheStorage :=
  let s1 := storageOpen s DYNAMIC_CACHE
  storageDeleteEntry s1 DYNAMIC_CACHE "/form-data"

/-- `doBackgroundSync`: read the pending submission; when present, POST it
to `/api/signup` (the POST network maps endpoint and body to an optional
response, `none` for a thrown error) and clear the entry only when the
response is ok.  Thrown errors are caught and only logged. -/
def doBackgroundSync (post : String → String → Option Response)
    (s : CacheStorage) : SyncOutcome :=
  match getStoredFormData s with
  | (some formData, s1) =>
      match post "/api/signup" formData with
      | some response =>
          if response.ok then
            { caches := clearStoredFormData s1, posted := some ("/api/signup", formData) }
          else
            { caches := s1, posted := some ("/api/signup", formData) }
      | none =>
          { caches := s1, posted := some ("/api/signup", formData) }
  | (none, s1) => { caches := s1, posted := none }

/-- The `sync` listener: run `doBackgroundSync` only for the
`background-sync` tag. -/
def syncListener (tag : String) (post : String → String → Option Response)
    (s : CacheStorage) : Option SyncOutcome :=
  if tag = "background-sync" then some (doBackgroundSync post s) else none

/-! ## Notifications -/

/-- The action buttons of the displayed push notification:
`(action id, title)`. -/
def pushNotificationActions : List (String × String) :=
  [("explore", "View Deal"), ("close", "Close")]

/-- Outcome of a notification click: whether `notification.close()` ran
and the URL passed to `clients.openWindow`, if any. -/
structure NotificationClickOutcome where
  closed : Bool
  openedWindow : Option String
deriving Repr, DecidableEq

/-- The `notificationclick` listener: always close the notification; open
the root URL only when the clicked action is `explore`. -/
def notificationclickHandler (action : String) : NotificationClickOutcome :=
  { closed := true,
    openedWindow := if action = "explore" then some "/" else none }

/-! ## Concrete sample data used by witnesses and counterexamples -/

/-- A network on which every fetch throws (the offline network). -/
def downNetwork : Network := fun _ => none

/-- A network answering every URL with an ok (status 200) response. -/
def okNetwork : Network :=
  fun u => some { status := 200, body := "response for " ++ u, headers := [] }

/-- A same-origin GET request for the home page. -/
def homeRequest : Request := { url := "https://propgrid.example/", method := "GET" }

/-- A GET request for the Tailwind CDN resource. -/
def cdnRequest : Request := { url := "https://cdn.tailwindcss.com", method := "GET" }

/-- A GET request for the Google Fonts CDN resource. -/
def fontsRequest : Request :=
  { url := "https://fonts.googleapis.com/css2?family=Inter:wght@400;500;600;700&display=swap",
    method := "GET" }

/-- A sample cached copy of the Tailwind stylesheet. -/
def tailwindCachedResponse : Response :=
  { status := 200, body := "cached tailwind css", headers := [] }

/-- A storage whose static generation already holds the Tailwind resource. -/
def cdnSeededStorage : CacheStorage :=
  [(STATIC_CACHE, [(cdnRequest.url, tailwindCachedResponse)])]

/-- The home page as stored in the static generation at install time. -/
def staleHomeResponse : Response :=
  { status := 200, body := "stale home page", headers := [] }

/-- A newer copy of the home page served by the network later. -/
def freshHomeResponse : Response :=
  { status := 200, body := "fresh home page", headers := [] }

/-- A storage whose static generation holds the stale home page. -/
def staleSeededStorage : CacheStorage :=
  [(STATIC_CACHE, [(homeRequest.url, staleHomeResponse)])]

/-- A network serving the fresh home page and throwing on everything else. -/
def freshHomeNetwork : Network :=
  fun u => if u = homeRequest.url then some freshHomeResponse else none

/-- A pending form submission as stored under `/form-data`. -/
def formDataResponse : Response :=
  { status := 200, body := "pending signup payload", headers := [] }

/-- A storage whose dynamic generation holds one pending submission. -/
def pendingSyncStorage : CacheStorage :=
  [(DYNAMIC_CACHE, [("/form-data", formDataResponse)])]

/-- A POST network that always answers with an ok response. -/
def okPost : String → String → Option Response :=
  fun _ _ => some { status := 200, body := "", headers := [] }

/-- A POST network that always answers with a 500 response. -/
def failPost : String → String → Option Response :=
  fun _ _ => some { status := 500, body := "", headers := [] }

/-! ## Basic lemmas about the storage operations -/

/-- URLs of the entries of a cache, in order. -/
def cacheKeys (c : Cache) : List String :=
  c.map Prod.fst

theorem cacheGet_cachePut (c : Cache) (u : String) (r : Response) (v : String) :
    cacheGet (cachePut c u r) v = if v = u then some r else cacheGet c v := by
  induction c with
  | nil =>
      by_cases h : v = u
      · simp [cachePut, cacheGet, h]
      · have h' : ¬ u = v := fun hh => h hh.symm
        simp [cachePut, cacheGet, h, h']
  | cons e es ih =>
      by_cases he : e.1 = u
      · by_cases hv : v = u
        · simp [cachePut, cacheGet, he, hv]
        · have h' : ¬ u = v := fun hh => hv hh.symm
          have he' : ¬ e.1 = v := fun hh => h' (he.symm.trans hh)
          simp [cachePut, cacheGet, he, hv, h', he']
      · by_cases hv : v = u
        · have he' : ¬ e.1 = v := fun hh => he (hh.trans hv)
          subst hv
          simp [cachePut, cacheGet, he, he', ih]
        · by_cases hev : e.1 = v
          · simp [cachePut, cacheGet, he, hev, hv]
          · simp [cachePut, cacheGet, he, hev, hv, ih]

theorem cacheGet_cacheDeleteEntry_self (c : Cache) (u : String) :
    cacheGet (cacheDeleteEntry c u) u = none := by
  induction c with
  | nil => simp [cacheDeleteEntry, cacheGet]
  | cons e es ih =>
      by_cases he : e.1 = u <;> simp [cacheDeleteEntry, cacheGet, he, ih]

theorem cacheKeys_cachePut_new (c : Cache) (u : String) (r : Response)
    (h : cacheGet c u = none) : cacheKeys (cachePut c u r) = cacheKeys c ++ [u] := by
  induction c with
  | nil => simp [cachePut, cacheKeys]
  | cons e es ih =>
      by_cases he : e.1 = u
      · simp [cacheGet, he] at h
      · simp [cacheGet, he] at h
        simp [cachePut, cacheKeys, he] at ih ⊢
        exact ih h

theorem storageHasCache_eq_false (s : CacheStorage) (n : String)
    (h : storageHasCache s n = false) : storageGetCache s n = [] := by
  induction s with
  | nil => simp [storageGetCache]
  | cons c cs ih =>
      simp [storageHasCache] at h
      simp [storageGetCache, h.1, ih h.2]

theorem storageGetCache_append_fresh_self (s : CacheStorage) (n : String) (c : Cache)
    (h : storageHasCache s n = false) : storageGetCache (s ++ [(n, c)]) n = c := by
  induction s with
  | nil => simp [storageGetCache]
  | cons e es ih =>
      simp [storageHasCache] at h
      simp [storageGetCache, h.1, ih h.2]

theorem storageGetCache_append_single_of_ne (s : CacheStorage) (n m : String)
    (c : Cache) (h : ¬ n = m) :
    storageGetCache (s ++ [(n, c)]) m = storageGetCache s m := by
  induction s with
  | nil => simp [storageGetCache, h]
  | cons e es ih =>
      by_cases he : e.1 = m <;> simp [storageGetCache, he, ih]

theorem storageGetCache_storageOpen (s : CacheStorage) (n m : String) :
    storageGetCache (storageOpen s n) m = storageGetCache s m := by
  unfold storageOpen
  by_cases h : storageHasCache s n
  · simp [h]
  · simp [h]
    by_cases hm : n = m
    · subst hm
      rw [storageGetCache_append_fresh_self s n [] (by simpa using h),
        storageHasCache_eq_false s n (by simpa using h)]
    · exact storageGetCache_append_single_of_ne s n m [] hm

theorem storageGetCache_storageSetCache_self (s : CacheStorage) (n : String) (c : Cache) :
    storageGetCache (storageSetCache s n c) n = c := by
  induction s with
  | nil => simp [storageSetCache, storageGetCache]
  | cons e es ih =>
      by_cases he : e.1 = n <;> simp [storageSetCache, storageGetCache, he, ih]

theorem storageGetCache_storageSetCache_of_ne (s : CacheStorage) (n m : String)
    (c : Cache) (h : m ≠ n) :
    storageGetCache (storageSetCache s n c) m = storageGetCache s m := by
  induction s with
  | nil =>
      have hnm : ¬ n = m := fun hh => h hh.symm
      simp [storageSetCache, storageGetCache, hnm]
  | cons e es ih =>
      by_cases he : e.1 = n
      · have hnm : ¬ n = m := fun hh => h hh.symm
        have hem : ¬ e.1 = m := fun hh => h (hh.symm.trans he)
        simp [storageSetCache, storageGetCache, he, hnm, hem]
      · by_cases hm : e.1 = m <;> simp [storageSetCache, storageGetCache, he, hm, ih, h]

theorem lookup_storagePut_self (s : CacheStorage) (n u : String) (r : Response) :
    cacheGet (storageGetCache (storagePut s n u r) n) u = some r := by
  unfold storagePut
  rw [storageGetCache_storageSetCache_self, cacheGet_cachePut]
  simp

theorem lookup_storagePut_cases (s : CacheStorage) (n u : String) (r : Response)
    (m v : String) (r' : Response)
    (h : cacheGet (storageGetCache (storagePut s n u r) m) v = some r') :
    (m = n ∧ v = u ∧ r' = r) ∨ cacheGet (storageGetCache s m) v = some r' := by
  unfold storagePut at h
  by_cases hm : m = n
  · subst hm
    rw [storageGetCache_storageSetCache_self, cacheGet_cachePut] at h
    by_cases hv : v = u
    · simp [hv] at h
      exact Or.inl ⟨rfl, hv, h.symm⟩
    · simp [hv] at h
      rw [storageGetCache_storageOpen] at h
      exact Or.inr h
  · rw [storageGetCache_storageSetCache_of_ne _ _ _ _ hm,
      storageGetCache_storageOpen] at h
    exact Or.inr h

theorem storageMatch_append_single_empty (s : CacheStorage) (n u : String) :
    storageMatch (s ++ [(n, [])]) u = storageMatch s u := by
  induction s with
  | nil => simp [storageMatch, cacheGet]
  | cons e es ih =>
      rw [List.cons_append]
      unfold storageMatch
      cases hg : cacheGet e.2 u with
      | some r => simp
      | none => simpa using ih

theorem storageMatch_storageOpen (s : CacheStorage) (n u : String) :
    storageMatch (storageOpen s n) u = storageMatch s u := by
  unfold storageOpen
  by_cases h : storageHasCache s n <;> simp [h, storageMatch_append_single_empty]

theorem storageMatch_isSome_of_lookup (s : CacheStorage) (n u : String) (r : Response)
    (h : cacheGet (storageGetCache s n) u = some r) :
    ∃ c, storageMatch s u = some c := by
  induction s with
  | nil => simp [storageGetCache, cacheGet] at h
  | cons e es ih =>
      by_cases he : e.1 = n
      · simp [storageGetCache, he] at h
        exact ⟨r, by simp [storageMatch, h]⟩
      · simp [storageGetCache, he] at h
        rcases ih h with ⟨c, hc⟩
        cases hg : cacheGet e.2 u with
        | none => exact ⟨c, by simp [storageMatch, hg, hc]⟩
        | some r0 => exact ⟨r0, by simp [storageMatch, hg]⟩

theorem storageMatch_none_elim (s : CacheStorage) (u : String)
    (h : storageMatch s u = none) (c : Cache) (hc : c ∈ s.map Prod.snd) :
    cacheGet c u = none := by
  induction s with
  | nil => simp at hc
  | cons e es ih =>
      unfold storageMatch at h
      cases hg : cacheGet e.2 u with
      | some r => simp [hg] at h
      | none =>
          simp [hg] at h
          simp at hc
          rcases hc with hc | hc
          · rw [← hc] at hg
            exact hg
          · exact ih h (by simpa using hc)

theorem storageMatch_storageSetCache_of_none (s : CacheStorage) (u n : String)
    (c : Cache) (r : Response) (h : storageMatch s u = none)
    (hc : cacheGet c u = some r) :
    storageMatch (storageSetCache s n c) u = some r := by
  induction s with
  | nil => simp [storageSetCache, storageMatch, hc]
  | cons e es ih =>
      unfold storageMatch at h
      cases hg : cacheGet e.2 u with
      | some r0 => simp [hg] at h
      | none =>
          simp [hg] at h
          by_cases he : e.1 = n
          · simp [storageSetCache, he, storageMatch, hc]
          · simp [storageSetCache, he, storageMatch, hg, ih h]

theorem storageMatch_storagePut_self_of_none (s : CacheStorage) (n u : String)
    (r : Response) (h : storageMatch s u = none) :
    storageMatch (storagePut s n u r) u = some r := by
  unfold storagePut
  refine storageMatch_storageSetCache_of_none _ _ _ _ _ ?_ ?_
  · rw [storageMatch_storageOpen]
    exact h
  · rw [cacheGet_cachePut]
    simp

theorem handleSameOrigin_offline_result (s : CacheStorage) (req : Request) (c : Response)
    (h : storageMatch s req.url = some c) :
    (handleSameOriginRequest downNetwork s req).result = FetchResult.response c := by
  unfold handleSameOriginRequest
  simp [downNetwork, h]

theorem fetchAll_map_fst (net : Network) (urls : List String)
    (prs : List (String × Response)) (h : fetchAll net urls = some prs) :
    prs.map Prod.fst = urls := by
  induction urls generalizing prs with
  | nil =>
      simp [fetchAll] at h
      simp [← h]
  | cons u us ih =>
      unfold fetchAll at h
      cases hn : net u with
      | none => simp [hn] at h
      | some r =>
          simp [hn] at h
          rcases h with ⟨hok, h⟩
          cases hf : fetchAll net us with
          | none => simp [hf] at h
          | some rest =>
              simp [hf] at h
              rw [← h]
              simp [ih rest hf]

theorem fetchAll_ok (net : Network) (urls : List String)
    (prs : List (String × Response)) (h : fetchAll net urls = some prs) :
    ∀ pr ∈ prs, pr.2.ok = true := by
  induction urls generalizing prs with
  | nil =>
      simp [fetchAll] at h
      subst h
      simp
  | cons u us ih =>
      unfold fetchAll at h
      cases hn : net u with
      | none => simp [hn] at h
      | some r =>
          simp [hn] at h
          rcases h with ⟨hok, h⟩
          cases hf : fetchAll net us with
          | none => simp [hf] at h
          | some rest =>
              simp [hf] at h
              rw [← h]
              intro pr hpr
              rcases List.mem_cons.mp hpr with hpr | hpr
              · rw [hpr]
                exact hok
              · exact ih rest hf pr hpr

theorem cacheKeys_cacheAddAllEntries (prs : List (String × Response)) (c : Cache)
    (hfresh : ∀ pr ∈ prs, cacheGet c pr.1 = none)
    (hnodup : (prs.map Prod.fst).Nodup) :
    cacheKeys (cacheAddAllEntries c prs) = cacheKeys c ++ prs.map Prod.fst := by
  induction prs generalizing c with
  | nil => simp [cacheAddAllEntries]
  | cons pr rest ih =>
      simp only [List.map_cons, List.nodup_cons] at hnodup
      have hput : ∀ q ∈ rest, cacheGet (cachePut c pr.1 pr.2) q.1 = none := by
        intro q hq
        rw [cacheGet_cachePut]
        have hne : q.1 ≠ pr.1 := by
          intro hqe
          exact hnodup.1 (hqe ▸ List.mem_map_of_mem Prod.fst hq)
        simp [hne]
        exact hfresh q (List.mem_cons_of_mem _ hq)
      have hstep : cacheAddAllEntries c (pr :: rest) =
          cacheAddAllEntries (cachePut c pr.1 pr.2) rest := by
        simp [cacheAddAllEntries]
      rw [hstep, ih _ hput hnodup.2,
        cacheKeys_cachePut_new c pr.1 pr.2 (hfresh pr (List.mem_cons_self _ _))]
      simp

/-! ## Claim C2 — install failure handling -/

/-- Claim C2 counterexample: with a dead network every manifest fetch fails,
yet the promise handed to `event.waitUntil` still resolves (so the install
succeeds and the new version can go on to activate), because the trailing
`.catch` of the install chain swallows the error; only `skipWaiting` is
skipped and the static generation is left created but empty.  This refutes
the claim that a manifest fetch/store failure makes the install fail. -/
theorem claim_C2_counterexample :
    (installHandler downNetwork []).waitUntilResolved = true
    ∧ (installHandler downNetwork []).skipWaitingCalled = false
    ∧ (installHandler downNetwork []).caches = [(STATIC_CACHE, [])] :=
  ⟨rfl, rfl, rfl⟩

/-- Claim C2 (amended): when fetching or storing any manifest URL fails
during install, the error is caught by the install chain's `.catch` and
only logged: the `waitUntil` promise resolves, so the install succeeds and
does not block the new version; `skipWaiting` is not called on that path,
and no manifest entries are stored (the static generation is merely
created). -/
theorem claim_C2_install_catch (net : Network) (s : CacheStorage)
    (h : fetchAll net STATIC_FILES = none) :
    installHandler net s =
      { caches := storageOpen s STATIC_CACHE,
        waitUntilResolved := true,
        skipWaitingCalled := false } := by
  unfold installHandler
  simp [h]

/-- Claim C2 witness: the amended theorem applied to the dead network and
the empty storage. -/
theorem claim_C2_witness :
    fetchAll downNetwork STATIC_FILES = none
    ∧ installHandler downNetwork [] =
      { caches := storageOpen [] STATIC_CACHE,
        waitUntilResolved := true,
        skipWaitingCalled := false } :=
  ⟨rfl, claim_C2_install_catch downNetwork [] rfl⟩

/-! ## Claim C3 — static generation after a successful install -/

/-- Claim C3 counterexample: the static precache manifest has six URLs
(`/`, `/index.html`, `/script.js` and three CDN URLs), so after a
successful install the static generation holds 6 entries, not the 5 the
claim states. -/
theorem claim_C3_counterexample :
    (storageGetCache (installHandler okNetwork []).caches STATIC_CACHE).length = 6
    ∧ STATIC_FILES.length ≠ 5 := by
  constructor <;> decide

/-- Claim C3 (amended): after a successful install starting from a storage
whose static generation is empty, the static generation contains one entry
per manifest URL and nothing else — its keys are exactly `STATIC_FILES`,
which for the concrete manifest means exactly those 6 entries. -/
theorem claim_C3_static_manifest (net : Network) (s : CacheStorage)
    (prs : List (String × Response)) (hfetch : fetchAll net STATIC_FILES = some prs)
    (hempty : storageGetCache s STATIC_CACHE = []) :
    cacheKeys (storageGetCache (installHandler net s).caches STATIC_CACHE) = STATIC_FILES
    ∧ STATIC_FILES.length = 6 := by
  constructor
  · unfold installHandler
    simp only [hfetch]
    rw [storageGetCache_storageSetCache_self, storageGetCache_storageOpen, hempty]
    rw [cacheKeys_cacheAddAllEntries prs []
      (by intro pr hpr; rfl)
      (by rw [fetchAll_map_fst net STATIC_FILES prs hfetch]; decide)]
    rw [fetchAll_map_fst net STATIC_FILES prs hfetch]
    simp [cacheKeys]
  · decide

/-- Claim C3 witness: the amended theorem applied to the all-ok network and
the empty storage. -/
theorem claim_C3_witness :
    fetchAll okNetwork STATIC_FILES =
      some (STATIC_FILES.map
        (fun u => (u, { status := 200, body := "response for " ++ u, headers := [] })))
    ∧ cacheKeys (storageGetCache (installHandler okNetwork []).caches STATIC_CACHE)
        = STATIC_FILES :=
  ⟨rfl, (claim_C3_static_manifest okNetwork []
    (STATIC_FILES.map
      (fun u => (u, { status := 200, body := "response for " ++ u, headers := [] })))
    rfl rfl).1⟩

/-! ## Claim C4 — activate cleans up old generations, then claims clients -/

/-- Claim C4 (confirmed): the activate handler keeps a cache generation
exactly when its key is the current static or dynamic generation key — so
every generation of any other version is deleted — and then claims control
of all open clients. -/
theorem claim_C4_activate_cleanup (s : CacheStorage) :
    (activateHandler s).claimed = true
    ∧ (∀ n, n ∈ storageKeys (activateHandler s).caches ↔
        n ∈ storageKeys s ∧ (n = STATIC_CACHE ∨ n = DYNAMIC_CACHE)) := by
  refine ⟨rfl, fun n => ?_⟩
  unfold activateHandler storageKeys
  simp only [List.mem_map, List.mem_filter]
  constructor
  · rintro ⟨c, ⟨hc, hp⟩, hn⟩
    subst hn
    refine ⟨⟨c, hc, rfl⟩, ?_⟩
    simpa using hp
  · rintro ⟨⟨c, hc, hn⟩, hor⟩
    subst hn
    exact ⟨c, ⟨hc, by simpa using hor⟩, rfl⟩

/-! ## Claim C9 — notification click -/

/-- Claim C9 counterexample: on a default (actionless) click the handler
closes the notification but opens nothing — `clients.openWindow` runs only
for the `explore` action — refuting the part of the claim that a default
click opens the site's root URL. -/
theorem claim_C9_counterexample :
    (notificationclickHandler "").openedWindow = none
    ∧ (notificationclickHandler "").closed = true :=
  ⟨rfl, rfl⟩

/-- Claim C9 (amended): a clicked notification is always closed, and the
site's root URL is opened exactly when the clicked action is `explore`
(the action titled "View Deal"); a default (actionless) click, and the
`close` action, open nothing. -/
theorem claim_C9_notification_click (action : String) :
    (notificationclickHandler action).closed = true
    ∧ ((notificationclickHandler action).openedWindow = some "/" ↔ action = "explore")
    ∧ pushNotificationActions = [("explore", "View Deal"), ("close", "Close")] := by
  refine ⟨rfl, ?_, rfl⟩
  unfold notificationclickHandler
  by_cases h : action = "explore" <;> simp [h]

/-! ## Claim C1 — same-origin network-first with fallbacks -/

/-- Claim C1 counterexample: (1) with no cached entries at all and a dead
network, the same-origin handler returns no response at all (the
`caches.match('/offline.html')` lookup is `undefined` because
`/offline.html` is never precached), not the designated offline document;
(2) with an entry for the URL only in the static generation (none in the
dynamic one) and a dead network, the handler returns that static entry —
`caches.match` searches every generation — where the claim says that with
no dynamic entry the offline document is returned. -/
theorem claim_C1_counterexample :
    (handleSameOriginRequest downNetwork [] homeRequest).result = FetchResult.noResponse
    ∧ (handleSameOriginRequest downNetwork staleSeededStorage homeRequest).result
        = FetchResult.response staleHomeResponse := by
  constructor <;> rfl

/-- Claim C1 (amended): for every same-origin GET request the fetch
listener runs the same-origin handler, which tries the network first; on
an ok network response it stores a copy into the dynamic generation under
the request URL and returns the network response (a non-ok network
response is returned uncached); when the network fetch fails it falls back
to the first cached entry for that exact URL in any cache generation in
creation order; when no generation has such an entry it returns the cached
`/offline.html` entry when one exists, and no response (undefined)
otherwise — in particular, for a same-origin navigation request with no
cached entries and no network, no offline document is returned because
`/offline.html` is never precached. -/
theorem claim_C1_network_first (selfOrigin : String) (net : Network) (s : CacheStorage)
    (req : Request) (hget : req.method = "GET")
    (horigin : urlOrigin req.url = selfOrigin) :
    fetchListener selfOrigin net s req = some (handleSameOriginRequest net s req)
    ∧ (∀ r, net req.url = some r → r.ok = true →
        (handleSameOriginRequest net s req).result = FetchResult.response r
        ∧ cacheGet (storageGetCache (handleSameOriginRequest net s req).caches
            DYNAMIC_CACHE) req.url = some r)
    ∧ (∀ r, net req.url = some r → r.ok = false →
        (handleSameOriginRequest net s req).result = FetchResult.response r
        ∧ (handleSameOriginRequest net s req).caches = s)
    ∧ (net req.url = none → ∀ c, storageMatch s req.url = some c →
        (handleSameOriginRequest net s req).result = FetchResult.response c)
    ∧ (net req.url = none → storageMatch s req.url = none →
        ∀ o, storageMatch s "/offline.html" = some o →
          (handleSameOriginRequest net s req).result = FetchResult.response o)
    ∧ (net req.url = none → storageMatch s req.url = none →
        storageMatch s "/offline.html" = none →
        (handleSameOriginRequest net s req).result = FetchResult.noResponse) := by
  refine ⟨?_, ?_, ?_, ?_, ?_, ?_⟩
  · unfold fetchListener
    simp [hget, horigin]
  · intro r hr hok
    unfold handleSameOriginRequest
    simp [hr, hok, lookup_storagePut_self]
  · intro r hr hok
    unfold handleSameOriginRequest
    simp [hr, hok]
  · intro hn c hc
    unfold handleSameOriginRequest
    simp [hn, hc]
  · intro hn hmiss o ho
    unfold handleSameOriginRequest
    simp [hn, hmiss, ho]
  · intro hn hmiss hoff
    unfold handleSameOriginRequest
    simp [hn, hmiss, hoff]

/-- Claim C1 witness: the amended theorem applied to the all-ok network,
the empty storage and the home-page request; the routing and the
dynamic-generation store are extracted at the concrete ok response. -/
theorem claim_C1_witness :
    homeRequest.method = "GET"
    ∧ fetchListener "https://propgrid.example" okNetwork [] homeRequest
        = some (handleSameOriginRequest okNetwork [] homeRequest)
    ∧ cacheGet (storageGetCache (handleSameOriginRequest okNetwork [] homeRequest).caches
        DYNAMIC_CACHE) homeRequest.url
      = some { status := 200, body := "response for " ++ homeRequest.url, headers := [] } :=
  ⟨rfl,
   (claim_C1_network_first "https://propgrid.example" okNetwork [] homeRequest rfl rfl).1,
   ((claim_C1_network_first "https://propgrid.example" okNetwork [] homeRequest rfl rfl).2.1
     { status := 200, body := "response for " ++ homeRequest.url, headers := [] } rfl rfl).2⟩

/-! ## Claim C5 — CDN requests are cache-first -/

/-- Claim C5 (confirmed): a GET request whose origin matches a recognized
CDN host is routed to the CDN handler; when the URL already has a cached
entry the handler returns it with zero network fetches and an unchanged
storage; only on a cache miss does it fetch (one network call), returning
the network response and storing it into the static generation when it is
ok. -/
theorem claim_C5_cdn_cache_first (selfOrigin : String) (net : Network) (s : CacheStorage)
    (req : Request) (hget : req.method = "GET")
    (hcdn : isCDNOrigin (urlOrigin req.url) = true)
    (hself : urlOrigin req.url ≠ selfOrigin) :
    fetchListener selfOrigin net s req = some (handleCDNRequest net s req)
    ∧ (∀ c, storageMatch s req.url = some c →
        handleCDNRequest net s req =
          { result := FetchResult.response c, caches := s, fetchCount := 0 })
    ∧ (storageMatch s req.url = none → ∀ r, net req.url = some r →
        (handleCDNRequest net s req).fetchCount = 1
        ∧ (handleCDNRequest net s req).result = FetchResult.response r
        ∧ (r.ok = true →
            cacheGet (storageGetCache (handleCDNRequest net s req).caches STATIC_CACHE)
              req.url = some r)) := by
  refine ⟨?_, ?_, ?_⟩
  · unfold fetchListener
    simp [hget, hself, hcdn]
  · intro c hc
    unfold handleCDNRequest
    simp [hc]
  · intro hmiss r hr
    unfold handleCDNRequest
    by_cases hok : r.ok
    · simp [hmiss, hr, hok, lookup_storagePut_self]
    · simp [hmiss, hr, hok]

/-- Claim C5 witness: the theorem applied to the already-cached Tailwind
resource over the dead network — the cached response comes back with a
fetch count of zero. -/
theorem claim_C5_witness :
    storageMatch cdnSeededStorage cdnRequest.url = some tailwindCachedResponse
    ∧ handleCDNRequest downNetwork cdnSeededStorage cdnRequest =
        { result := FetchResult.response tailwindCachedResponse,
          caches := cdnSeededStorage, fetchCount := 0 } :=
  ⟨rfl,
   (claim_C5_cdn_cache_first "https://propgrid.example" downNetwork cdnSeededStorage
      cdnRequest rfl (by decide) (by decide)).2.1 tailwindCachedResponse rfl⟩

/-! ## Claim C6 — CDN total-failure fallback -/

/-- Claim C6 (confirmed): when the cache lookup misses and the network
fetch throws for a recognized-CDN request, the handler returns the
synthetic stylesheet (status 200, content-type `text/css`, placeholder
body) exactly when the request URL contains `tailwindcss.com`, and
re-throws the error for every other CDN resource. -/
theorem claim_C6_cdn_failure (net : Network) (s : CacheStorage) (req : Request)
    (hmiss : storageMatch s req.url = none) (hnet : net req.url = none) :
    (strIncludes "tailwindcss.com" req.url = true →
      handleCDNRequest net s req =
        { result := FetchResult.response tailwindFallbackResponse,
          caches := s, fetchCount := 1 }
      ∧ tailwindFallbackResponse.headers = [("Content-Type", "text/css")]
      ∧ tailwindFallbackResponse.body = "/* Tailwind CSS fallback */"
      ∧ tailwindFallbackResponse.ok = true)
    ∧ (strIncludes "tailwindcss.com" req.url = false →
      handleCDNRequest net s req =
        { result := FetchResult.thrown, caches := s, fetchCount := 1 }) := by
  constructor
  · intro htw
    refine ⟨?_, rfl, rfl, by decide⟩
    unfold handleCDNRequest
    simp [hmiss, hnet, htw]
  · intro htw
    unfold handleCDNRequest
    simp [hmiss, hnet, htw]

/-- Claim C6 witness: with empty storage and a dead network, the Tailwind
request yields the synthetic stylesheet and the Google Fonts request
re-throws. -/
theorem claim_C6_witness :
    handleCDNRequest downNetwork [] cdnRequest =
      { result := FetchResult.response tailwindFallbackResponse,
        caches := [], fetchCount := 1 }
    ∧ handleCDNRequest downNetwork [] fontsRequest =
      { result := FetchResult.thrown, caches := [], fetchCount := 1 } :=
  ⟨((claim_C6_cdn_failure downNetwork [] cdnRequest rfl rfl).1 (by decide)).1,
   (claim_C6_cdn_failure downNetwork [] fontsRequest rfl rfl).2 (by decide)⟩

/-! ## Claim C7 — background sync retry policy -/

/-- Claim C7 (confirmed): on a sync signal with the recognized
`background-sync` tag, a stored pending submission is POSTed to the fixed
endpoint `/api/signup`; the `/form-data` entry is deleted exactly when the
response is ok, and on a non-ok response or a thrown error the entry is
left unchanged in the dynamic generation (only `caches.open` has run). -/
theorem claim_C7_background_sync (post : String → String → Option Response)
    (s : CacheStorage) (fd : Response)
    (h : cacheGet (storageGetCache s DYNAMIC_CACHE) "/form-data" = some fd) :
    syncListener "background-sync" post s = some (doBackgroundSync post s)
    ∧ (doBackgroundSync post s).posted = some ("/api/signup", fd.body)
    ∧ (∀ r, post "/api/signup" fd.body = some r → r.ok = true →
        cacheGet (storageGetCache (doBackgroundSync post s).caches DYNAMIC_CACHE)
          "/form-data" = none)
    ∧ (∀ r, post "/api/signup" fd.body = some r → r.ok = false →
        (doBackgroundSync post s).caches = storageOpen s DYNAMIC_CACHE
        ∧ cacheGet (storageGetCache (doBackgroundSync post s).caches DYNAMIC_CACHE)
            "/form-data" = some fd)
    ∧ (post "/api/signup" fd.body = none →
        (doBackgroundSync post s).caches = storageOpen s DYNAMIC_CACHE
        ∧ cacheGet (storageGetCache (doBackgroundSync post s).caches DYNAMIC_CACHE)
            "/form-data" = some fd) := by
  have hget : getStoredFormData s = (some fd.body, storageOpen s DYNAMIC_CACHE) := by
    unfold getStoredFormData
    simp only [storageGetCache_storageOpen, h]
  refine ⟨rfl, ?_, ?_, ?_, ?_⟩
  · unfold doBackgroundSync
    rw [hget]
    cases hp : post "/api/signup" fd.body with
    | none => simp [hp]
    | some r => by_cases hok : r.ok <;> simp [hp, hok]
  · intro r hp hok
    have hc : (doBackgroundSync post s).caches
        = clearStoredFormData (storageOpen s DYNAMIC_CACHE) := by
      unfold doBackgroundSync
      rw [hget]
      simp [hp, hok]
    rw [hc]
    simp only [clearStoredFormData, storageDeleteEntry,
      storageGetCache_storageSetCache_self, cacheGet_cacheDeleteEntry_self]
  · intro r hp hok
    have hc : (doBackgroundSync post s).caches = storageOpen s DYNAMIC_CACHE := by
      unfold doBackgroundSync
      rw [hget]
      simp [hp, hok]
    rw [hc]
    exact ⟨rfl, by rw [storageGetCache_storageOpen]; exact h⟩
  · intro hp
    have hc : (doBackgroundSync post s).caches = storageOpen s DYNAMIC_CACHE := by
      unfold doBackgroundSync
      rw [hget]
      simp [hp]
    rw [hc]
    exact ⟨rfl, by rw [storageGetCache_storageOpen]; exact h⟩

/-- Claim C7 witness: with one stored pending submission, a successful POST
deletes the entry and a 500 POST leaves it in place. -/
theorem claim_C7_witness :
    cacheGet (storageGetCache pendingSyncStorage DYNAMIC_CACHE) "/form-data"
      = some formDataResponse
    ∧ (doBackgroundSync okPost pendingSyncStorage).posted
      = some ("/api/signup", formDataResponse.body)
    ∧ cacheGet (storageGetCache (doBackgroundSync okPost pendingSyncStorage).caches
        DYNAMIC_CACHE) "/form-data" = none
    ∧ cacheGet (storageGetCache (doBackgroundSync failPost pendingSyncStorage).caches
        DYNAMIC_CACHE) "/form-data" = some formDataResponse :=
  ⟨rfl,
   (claim_C7_background_sync okPost pendingSyncStorage formDataResponse rfl).2.1,
   ((claim_C7_background_sync okPost pendingSyncStorage formDataResponse rfl).2.2.1
     { status := 200, body := "", headers := [] } rfl rfl),
   ((claim_C7_background_sync failPost pendingSyncStorage formDataResponse rfl).2.2.2.1
     { status := 500, body := "", headers := [] } rfl rfl).2⟩

/-! ## Claim C8 — online-then-offline round trip -/

/-- Claim C8 counterexample: the home-page URL is already cached in the
static generation (from install) with a stale copy; an online fetch stores
the fresh response into the dynamic generation, but the subsequent offline
fetch returns the stale static entry, not the response stored by the
online fetch — `caches.match` searches the generations in creation order
and the static generation comes first. -/
theorem claim_C8_counterexample :
    cacheGet (storageGetCache
        (handleSameOriginRequest freshHomeNetwork staleSeededStorage homeRequest).caches
        DYNAMIC_CACHE) homeRequest.url = some freshHomeResponse
    ∧ (handleSameOriginRequest downNetwork
        (handleSameOriginRequest freshHomeNetwork staleSeededStorage homeRequest).caches
        homeRequest).result = FetchResult.response staleHomeResponse
    ∧ staleHomeResponse ≠ freshHomeResponse := by
  refine ⟨?_, ?_, ?_⟩ <;> decide

/-- Claim C8 (amended): after a same-origin URL is fetched once with an ok
response while the network is available (storing it in the dynamic
generation), a fetch of the identical URL while the network is unavailable
returns a previously cached response for that URL — the first match in
cache-creation order; it is exactly the response stored by the online
fetch whenever no generation held an entry for that URL beforehand (if an
earlier-created generation, such as the static one, already held an entry,
that older entry is returned instead). -/
theorem claim_C8_round_trip (net : Network) (s : CacheStorage) (req : Request)
    (r : Response) (hnet : net req.url = some r) (hok : r.ok = true) :
    cacheGet (storageGetCache (handleSameOriginRequest net s req).caches DYNAMIC_CACHE)
      req.url = some r
    ∧ (∃ c, (handleSameOriginRequest downNetwork
          (handleSameOriginRequest net s req).caches req).result = FetchResult.response c
        ∧ storageMatch (handleSameOriginRequest net s req).caches req.url = some c)
    ∧ (storageMatch s req.url = none →
        (handleSameOriginRequest downNetwork
          (handleSameOriginRequest net s req).caches req).result
          = FetchResult.response r) := by
  have hcaches : (handleSameOriginRequest net s req).caches
      = storagePut s DYNAMIC_CACHE req.url r := by
    unfold handleSameOriginRequest
    simp [hnet, hok]
  refine ⟨?_, ?_, ?_⟩
  · rw [hcaches]
    exact lookup_storagePut_self s DYNAMIC_CACHE req.url r
  · have hlook : cacheGet (storageGetCache (handleSameOriginRequest net s req).caches
        DYNAMIC_CACHE) req.url = some r := by
      rw [hcaches]
      exact lookup_storagePut_self s DYNAMIC_CACHE req.url r
    rcases storageMatch_isSome_of_lookup _ _ _ _ hlook with ⟨c, hc⟩
    exact ⟨c, handleSameOrigin_offline_result _ _ _ hc, hc⟩
  · intro hmiss
    have hmatch : storageMatch (handleSameOriginRequest net s req).caches req.url
        = some r := by
      rw [hcaches]
      exact storageMatch_storagePut_self_of_none s DYNAMIC_CACHE req.url r hmiss
    exact handleSameOrigin_offline_result _ _ _ hmatch

/-- Claim C8 witness: the amended theorem applied to the fresh-home-page
network and the empty storage — with no prior entry the offline fetch
returns exactly the response the online fetch stored. -/
theorem claim_C8_witness :
    freshHomeNetwork homeRequest.url = some freshHomeResponse
    ∧ (handleSameOriginRequest downNetwork
        (handleSameOriginRequest freshHomeNetwork [] homeRequest).caches
        homeRequest).result = FetchResult.response freshHomeResponse :=
  ⟨rfl,
   (claim_C8_round_trip freshHomeNetwork [] homeRequest freshHomeResponse rfl rfl).2.2 rfl⟩

/-! ## Claim C10 — fetch handlers cache only ok responses -/

/-- Claim C10 (confirmed): every cache entry present after a run of the
same-origin or CDN fetch handler was either already present in the
storage beforehand or is an ok response — the handlers guard every
`cache.put` with `networkResponse.ok`, so a non-ok network response is
returned to the caller but never written into any generation — and the
external handler never writes to the cache at all. -/
theorem claim_C10_only_ok_cached (net : Network) (s : CacheStorage) (req : Request)
    (n u : String) (r : Response) :
    (cacheGet (storageGetCache (handleSameOriginRequest net s req).caches n) u = some r →
      cacheGet (storageGetCache s n) u = some r ∨ r.ok = true)
    ∧ (cacheGet (storageGetCache (handleCDNRequest net s req).caches n) u = some r →
      cacheGet (storageGetCache s n) u = some r ∨ r.ok = true)
    ∧ (handleExternalRequest net s req).caches = s := by
  refine ⟨?_, ?_, ?_⟩
  · intro h
    unfold handleSameOriginRequest at h
    cases hn : net req.url with
    | some nr =>
        rw [hn] at h
        by_cases hok : nr.ok
        · simp only [hok, if_true] at h
          rcases lookup_storagePut_cases s DYNAMIC_CACHE req.url nr n u r h with
            ⟨_, _, hr⟩ | hold
          · subst hr
            exact Or.inr hok
          · exact Or.inl hold
        · simp only [hok, if_false] at h
          exact Or.inl h
    | none =>
        rw [hn] at h
        cases hm : storageMatch s req.url with
        | some c =>
            rw [hm] at h
            exact Or.inl h
        | none =>
            rw [hm] at h
            cases ho : storageMatch s "/offline.html" with
            | some o =>
                rw [ho] at h
                exact Or.inl h
            | none =>
                rw [ho] at h
                exact Or.inl h
  · intro h
    unfold handleCDNRequest at h
    cases hm : storageMatch s req.url with
    | some c =>
        rw [hm] at h
        exact Or.inl h
    | none =>
        rw [hm] at h
        cases hn : net req.url with
        | some nr =>
            rw [hn] at h
            by_cases hok : nr.ok
            · simp only [hok, if_true] at h
              rcases lookup_storagePut_cases s STATIC_CACHE req.url nr n u r h with
                ⟨_, _, hr⟩ | hold
              · subst hr
                exact Or.inr hok
              · exact Or.inl hold
            · simp only [hok, if_false] at h
              exact Or.inl h
        | none =>
            rw [hn] at h
            by_cases htw : strIncludes "tailwindcss.com" req.url <;>
              simp only [htw, if_true, if_false] at h <;> exact Or.inl h
  · unfold handleExternalRequest
    cases hn : net req.url <;> rfl

/-- Claim C10 witness: the same-origin clause instantiated at the all-ok
network, the empty storage and the home request — the entry found
afterwards is covered by the ok disjunct. -/
theorem claim_C10_witness :
    cacheGet (storageGetCache (handleSameOriginRequest okNetwork [] homeRequest).caches
        DYNAMIC_CACHE) homeRequest.url
      = some { status := 200, body := "response for " ++ homeRequest.url, headers := [] }
    ∧ (cacheGet (storageGetCache ([] : CacheStorage) DYNAMIC_CACHE) homeRequest.url
        = some { status := 200, body := "response for " ++ homeRequest.url, headers := [] }
      ∨ Response.ok { status := 200, body := "response for " ++ homeRequest.url, headers := [] }
        = true) :=
  ⟨rfl,
   (claim_C10_only_ok_cached okNetwork [] homeRequest DYNAMIC_CACHE homeRequest.url
     { status := 200, body := "response for " ++ homeRequest.url, headers := [] }).1 rfl⟩

end PropGridSW
